import Mathlib

/-!
Shallow embedding of `src/core/net/rplfuzzy/rpl-timers.c` (Contiki-OFFL),
the RPL timer management core with the "fuzzy latency" extension: the
periodic maintenance timer, the trickle-style DIO timer, the debounced DAO
timer and the neighbour DIO-arrival predictor.

C machine integers are embedded as `Nat` with explicit reduction modulo
`2^32` (`uint32_t`), `2^16` (`uintit16_t`) and `2^8` (`uint8_t`) where the
source computes in those widths.  Randomness (`random_rand()`) and the
current clock (`clock_time()`) are passed as explicit arguments.  A
`ctimer` is embedded as the duration it was last armed with
(`Option Nat`); calls into external collaborators (`dio_output`,
`dis_output`, `update_metric_container`, `rpl_purge_routes`,
`rpl_recalculate_ranks`, `ctimer_reset`) are recorded in explicit output
structures.
-/

namespace RplFuzzyTimers

/-- Modulus of C `uint32_t` arithmetic. -/
def M32 : Nat := 4294967296

/-- Reduction of a value to the `uint32_t` range. -/
def u32 (n : Nat) : Nat := n % M32

/-- Reduction of a value to the `uint16_t` range. -/
def u16 (n : Nat) : Nat := n % 65536

/-- Reduction of a value to the `uint8_t` range. -/
def u8 (n : Nat) : Nat := n % 256

/-- C `uint32_t` subtraction `a - b` (wraps modulo `2^32`). -/
def sub32 (a b : Nat) : Nat := (u32 a + M32 - u32 b) % M32

/-- Modelled from the spec: the platform clock granularity `CLOCK_SECOND`
(ticks per second) comes from the platform configuration, which is not in
`src/`; the spec only says logical durations are scaled to native ticks.
The common Contiki value 128 is used; no claim depends on the value. -/
def CLOCK_SECOND : Nat := 128

/-- Modelled from the spec: the bound of the uniform random source
(`RANDOM_RAND_MAX` of `lib/random.h`, not in `src/`); the standard Contiki
value is 65535. -/
def RANDOM_RAND_MAX : Nat := 65535

/-- Modelled from the spec: the fixed default repair (DAO) latency constant
`L` (`DEFAULT_DAO_LATENCY` of `rpl-private.h`, not in `src/`); the upstream
Contiki value is `CLOCK_SECOND * 4`. -/
def DEFAULT_DAO_LATENCY : Nat := CLOCK_SECOND * 4

/-- Modelled from the spec: the configured DIS interval
(`RPL_DIS_INTERVAL` of `rpl-private.h`, not in `src/`); upstream value 60. -/
def RPL_DIS_INTERVAL : Nat := 60

/-- Modelled from the spec: the DIS start delay (`RPL_DIS_START_DELAY` of
`rpl-private.h`, not in `src/`); upstream value 5. -/
def RPL_DIS_START_DELAY : Nat := 5

/-! ## The neighbour DIO-arrival predictor (lines 253-347)

Per-parent prediction fields of `rpl_parent_t` (declared in the header,
used here), together with the file-static `dis_sended` flag and the
file-static `dis_timer`.  `is_preferred` embeds the recurring guard
`p->dag->preferred_parent == p`. -/

/-- The prediction fields of `rpl_parent_t` that rpl-timers.c reads and
writes, plus the preferred-parent guard. -/
structure Parent where
  next_dio_time : Nat
  next_dio_delay : Nat
  next_dio_start_interval : Nat
  first_dio_received : Nat
  latency_metric : Nat
  latency_timer : Option Nat
  is_preferred : Bool
deriving DecidableEq, Repr

/-- Predictor state: one tracked parent plus the file-static
`static int dis_sended` and `static struct ctimer dis_timer`. -/
structure PredState where
  p : Parent
  dis_sended : Int
  dis_timer : Option Nat
deriving DecidableEq, Repr

/-- External calls observable during one predictor step: `dis_output`,
`update_metric_container`, and whether the `if (dis_sended)` residual
branch of `rpl_dio_received` executed. -/
structure PredOut where
  disSent : Bool
  metricUpdated : Bool
  residualTaken : Bool
deriving DecidableEq, Repr

/-- No external call. -/
def noPredOut : PredOut := ⟨false, false, false⟩

/-- `rpl_schedule_next_dio_reception` (lines 255-267).  `now` stands for
`clock_time()`.  Records the advertised triple and arms the wait timer
`latency_timer` for `delay + next_time + next_delay`. -/
def rpl_schedule_next_dio_reception (s : PredState)
    (now delay next_time next_delay : Nat) : PredState :=
  if s.p.is_preferred = true then
    { s with p := { s.p with
        next_dio_delay := u32 next_delay,
        next_dio_time := u32 next_time,
        next_dio_start_interval := u32 (now + delay),
        latency_timer := some (u32 (delay + next_time + next_delay)) } }
  else s

/-- `handle_next_dio` (lines 284-302): the wait timer expired with no DIO;
clear `first_dio_received` and arm the probe timer `dis_timer` for
`(100000 * random_rand()) / RANDOM_RAND_MAX` (the commented-out
`dis_sended = 1;` of line 300 is NOT executed). -/
def handle_next_dio (s : PredState) (r : Nat) : PredState :=
  if s.p.is_preferred = true then
    { s with p := { s.p with first_dio_received := 0 },
             dis_timer := some (u32 (100000 * r) / RANDOM_RAND_MAX) }
  else s

/-- `send_dis` (lines 273-281): while no first DIO has been received, emit a
unicast DIS to the parent and re-arm the probe timer. -/
def send_dis (s : PredState) (r : Nat) : PredState × PredOut :=
  if s.p.first_dio_received = 0 then
    ({ s with dis_timer := some (u32 (100000 * r) / RANDOM_RAND_MAX) },
     { noPredOut with disSent := true })
  else (s, noPredOut)

/-- Lines 319-327 of `rpl_dio_received`: the body of the `if (dis_sended)`
branch.  `residual` is a `uint8_t`, so the `uint32_t` difference is
truncated to 8 bits; the wait timer is re-armed for `residual + next_delay`
and the stored schedule is overwritten (`next_dio_start_interval` is
assigned to itself).  `nd` is the already skew-adjusted `next_delay`. -/
def dioResidualUpdate (s : PredState) (now next_time nd : Nat) : PredState :=
  { s with
    p := { s.p with
      latency_timer := some (u32 (u8 (sub32 (s.p.next_dio_start_interval +
        s.p.next_dio_time + s.p.next_dio_delay + next_time) now) + nd)),
      next_dio_time := u32 next_time,
      next_dio_delay := nd },
    dis_sended := 0 }

/-- Lines 329-344 of `rpl_dio_received`: the timeliness evaluation.  If
`now > next_dio_start_interval + next_dio_time` the DIO is late: record
`latency_metric`, call `update_metric_container` and re-predict.  Otherwise,
only if the advertised `next_time + next_delay` equals the stored
`next_dio_time + next_dio_delay` is the window refreshed; an early DIO with
a changed schedule is ignored.  `res` reports whether the residual branch
ran before this evaluation. -/
def dioTimeliness (s : PredState) (res : Bool) (now delay next_time nd : Nat) :
    PredState × PredOut :=
  if u32 (s.p.next_dio_start_interval + s.p.next_dio_time) < u32 now then
    (rpl_schedule_next_dio_reception
      { s with p := { s.p with
          latency_metric := sub32 now (s.p.next_dio_start_interval + s.p.next_dio_time) } }
      now delay next_time nd,
     { disSent := false, metricUpdated := true, residualTaken := res })
  else
    if u32 (next_time + nd) = u32 (s.p.next_dio_time + s.p.next_dio_delay) then
      (rpl_schedule_next_dio_reception s now delay next_time nd,
       { disSent := false, metricUpdated := false, residualTaken := res })
    else (s, { disSent := false, metricUpdated := false, residualTaken := res })

/-- `rpl_dio_received` (lines 304-347).  `now` stands for `clock_time()`.
The advertised `next_delay` is skew-adjusted by `+= 400` on entry.  A first
DIO records the window and sets `first_dio_received`; otherwise the
(dead, see `dis_sended`) residual branch would run first, then the
timeliness evaluation. -/
def rpl_dio_received (s : PredState) (now delay next_time next_delay : Nat) :
    PredState × PredOut :=
  if s.p.is_preferred = true then
    if s.p.first_dio_received = 0 then
      ({ rpl_schedule_next_dio_reception s now delay next_time (u32 (next_delay + 400)) with
          p := { (rpl_schedule_next_dio_reception s now delay next_time
                    (u32 (next_delay + 400))).p with first_dio_received := 1 },
          dis_sended := 0 }, noPredOut)
    else
      if s.dis_sended ≠ 0 then
        dioTimeliness (dioResidualUpdate s now next_time (u32 (next_delay + 400))) true
          now delay next_time (u32 (next_delay + 400))
      else
        dioTimeliness s false now delay next_time (u32 (next_delay + 400))
  else (s, noPredOut)

/-- The events that drive the predictor: an external (re)initialisation of
the window, expiry of the wait timer, expiry of the probe timer, and
receipt of a DIO. -/
inductive PredEvent where
  | sched (now delay next_time next_delay : Nat)
  | waitExpiry (r : Nat)
  | probeExpiry (r : Nat)
  | dio (now delay next_time next_delay : Nat)

/-- One predictor transition. -/
def predStep (s : PredState) : PredEvent → PredState
  | .sched now delay next_time next_delay =>
      rpl_schedule_next_dio_reception s now delay next_time next_delay
  | .waitExpiry r => handle_next_dio s r
  | .probeExpiry r => (send_dis s r).1
  | .dio now delay next_time next_delay =>
      (rpl_dio_received s now delay next_time next_delay).1

/-- Initial predictor state: the file-static `static int dis_sended` is
zero-initialised and `dis_timer` is not armed; the parent record is created
by the (external) parent table, so its fields are arbitrary. -/
def predInit (p : Parent) : PredState := { p := p, dis_sended := 0, dis_timer := none }

/-- The states the predictor can reach through any sequence of its events. -/
inductive PredReachable : PredState → Prop where
  | init (p : Parent) : PredReachable (predInit p)
  | step {s : PredState} (e : PredEvent) : PredReachable s → PredReachable (predStep s e)

/-! ## The trickle DIO timer, the DAO timer and the periodic timer
(lines 55-251) -/

/-- The fields of `rpl_dag_t` that rpl-timers.c reads and writes.
`dio_timer` and `dao_timer_dur` embed the two per-dag ctimers as the
duration each was last armed with; `dao_armed` embeds
`!etimer_expired(&dag->dao_timer.etimer)` (armed and not yet expired). -/
structure Dag where
  dio_intcurrent : Nat
  dio_intmin : Nat
  dio_intdoubl : Nat
  dio_counter : Nat
  dio_redundancy : Nat
  dio_send : Nat
  dio_next_delay : Nat
  dio_timer : Option Nat
  dao_armed : Bool
  dao_timer_dur : Option Nat
deriving DecidableEq, Repr

/-- The file-static look-ahead cache `next_time`/`next_delay`
(lines 86-87) and `dio_send_ok` (line 64). -/
structure TrickleGlob where
  next_time : Nat
  next_delay : Nat
  dio_send_ok : Nat
deriving DecidableEq, Repr

/-- External calls observable during one trickle step: `dio_output`, the
suppression log, the postponement path, and `dio_output_set_next`
(published look-ahead `(next_time, next_delay, dio_next_delay)`). -/
structure TrickleOut where
  dioSent : Bool
  dioSuppressed : Bool
  postponed : Bool
  setNext : Option (Nat × Nat × Nat)
deriving DecidableEq, Repr

/-- No external call. -/
def noTrickleOut : TrickleOut := ⟨false, false, false, none⟩

/-- `new_interval` (lines 89-95): scale the logical duration to native
ticks, then split it randomly.  `r` stands for `random_rand()`.  Returns
(`*time`, `*next`) = (first half, remaining second half); all arithmetic is
`uint32_t`. -/
def new_interval (time r : Nat) : Nat × Nat :=
  (u32 (u32 (time * CLOCK_SECOND) / 1000 / 2 +
      u32 (u32 (time * CLOCK_SECOND) / 1000 / 2 * r) / RANDOM_RAND_MAX),
   sub32 (u32 (time * CLOCK_SECOND) / 1000)
     (u32 (u32 (time * CLOCK_SECOND) / 1000 / 2 +
       u32 (u32 (time * CLOCK_SECOND) / 1000 / 2 * r) / RANDOM_RAND_MAX)))

/-- `new_dio_interval` (lines 98-139): start a new interval.  When the
look-ahead cache is empty (`next_time == 0`) the interval is computed
fresh from `1UL << dio_intcurrent` (consuming random `r1`); otherwise the
cached pair is consumed.  `dio_send` is set, the redundancy counter is
reset, the timer is armed for the first half, and the look-ahead for
exponent `dio_intcurrent + 1` is recomputed (consuming `r2`) and published
via `dio_output_set_next`. -/
def new_dio_interval (dag : Dag) (g : TrickleGlob) (r1 r2 : Nat) :
    Dag × TrickleGlob × TrickleOut :=
  ({ dag with
      dio_next_delay :=
        if g.next_time = 0 then (new_interval (u32 (2 ^ dag.dio_intcurrent)) r1).2
        else g.next_delay,
      dio_send := 1,
      dio_counter := 0,
      dio_timer := some
        (if g.next_time = 0 then (new_interval (u32 (2 ^ dag.dio_intcurrent)) r1).1
         else g.next_time) },
   { g with
      next_time := (new_interval (u32 (2 ^ (dag.dio_intcurrent + 1))) r2).1,
      next_delay := (new_interval (u32 (2 ^ (dag.dio_intcurrent + 1))) r2).2 },
   { noTrickleOut with
      setNext :=
        some ((new_interval (u32 (2 ^ (dag.dio_intcurrent + 1))) r2).1,
          (new_interval (u32 (2 ^ (dag.dio_intcurrent + 1))) r2).2,
          (if g.next_time = 0 then (new_interval (u32 (2 ^ dag.dio_intcurrent)) r1).2
           else g.next_delay)) })

/-- `handle_dio_timer` (lines 141-180).  `linkLocalOk` embeds
`uip_ds6_get_link_local(ADDR_PREFERRED) != NULL`.  If the node is not
ready to send and has no link-local address, postpone by `CLOCK_SECOND`.
In the send phase (`dio_send` set) emit or suppress by the redundancy
check, clear `dio_send` and arm the second half; otherwise double the
interval exponent while strictly below the cap and start a new interval. -/
def handle_dio_timer (dag : Dag) (g : TrickleGlob) (linkLocalOk : Bool) (r1 r2 : Nat) :
    Dag × TrickleGlob × TrickleOut :=
  if g.dio_send_ok = 0 ∧ linkLocalOk = false then
    ({ dag with dio_timer := some CLOCK_SECOND }, g,
     { noTrickleOut with postponed := true })
  else
    if dag.dio_send ≠ 0 then
      if dag.dio_counter < dag.dio_redundancy then
        ({ dag with dio_send := 0, dio_timer := some dag.dio_next_delay },
         (if g.dio_send_ok = 0 then { g with dio_send_ok := 1 } else g),
         { noTrickleOut with dioSent := true })
      else
        ({ dag with dio_send := 0, dio_timer := some dag.dio_next_delay },
         (if g.dio_send_ok = 0 then { g with dio_send_ok := 1 } else g),
         { noTrickleOut with dioSuppressed := true })
    else
      new_dio_interval
        (if dag.dio_intcurrent < dag.dio_intmin + dag.dio_intdoubl then
          { dag with dio_intcurrent := dag.dio_intcurrent + 1 }
         else dag)
        (if g.dio_send_ok = 0 then { g with dio_send_ok := 1 } else g) r1 r2

/-- `rpl_reset_dio_timer` (lines 190-208): only when `force` is set or the
timer is beyond the minimal interval, reset counter and exponent, clear the
look-ahead cache (`next_time = 0`) and start a new interval. -/
def rpl_reset_dio_timer (dag : Dag) (g : TrickleGlob) (force : Nat) (r1 r2 : Nat) :
    Dag × TrickleGlob × TrickleOut :=
  if force ≠ 0 ∨ dag.dio_intmin < dag.dio_intcurrent then
    new_dio_interval
      { dag with dio_counter := 0, dio_intcurrent := dag.dio_intmin }
      { g with next_time := 0 } r1 r2
  else (dag, g, noTrickleOut)

/-- `rpl_schedule_dao` (lines 234-251): debounced DAO scheduling.  If the
DAO timer is armed and not yet expired, nothing happens; otherwise arm for
`DEFAULT_DAO_LATENCY / 2 + random_rand() % DEFAULT_DAO_LATENCY`.  The
returned `Bool` records whether `ctimer_set` was called. -/
def rpl_schedule_dao (dag : Dag) (r : Nat) : Dag × Bool :=
  if dag.dao_armed = true then (dag, false)
  else
    ({ dag with
        dao_armed := true,
        dao_timer_dur := some (DEFAULT_DAO_LATENCY / 2 + r % DEFAULT_DAO_LATENCY) },
     true)

/-- State of the periodic machinery: the file-static `uint16_t next_dis`
(line 61) and the periodic ctimer. -/
structure PeriodicState where
  next_dis : Nat
  periodic_timer : Option Nat
deriving DecidableEq, Repr

/-- External calls observable during one periodic tick: `rpl_purge_routes`,
`rpl_recalculate_ranks`, `dis_output(NULL)` and `ctimer_reset`. -/
structure PeriodicOut where
  purgedRoutes : Bool
  recalculatedRanks : Bool
  disSent : Bool
  rearmed : Bool
deriving DecidableEq, Repr

/-- `handle_periodic_timer` (lines 68-83), with the `RPL_DIS_SEND` feature
compiled in.  `hasDag` embeds `rpl_get_dag(RPL_ANY_INSTANCE) != NULL`.
Purge and rank recomputation always run; `next_dis` is incremented
(`uint16_t`), and exactly when no dag exists and the counter reached
`RPL_DIS_INTERVAL`, the counter is cleared and a broadcast DIS is sent;
`ctimer_reset` re-arms the one-second timer unconditionally. -/
def handle_periodic_timer (s : PeriodicState) (hasDag : Bool) :
    PeriodicState × PeriodicOut :=
  if hasDag = false ∧ RPL_DIS_INTERVAL ≤ u16 (s.next_dis + 1) then
    ({ s with next_dis := 0 }, ⟨true, true, true, true⟩)
  else
    ({ s with next_dis := u16 (s.next_dis + 1) }, ⟨true, true, false, true⟩)

/-- `rpl_reset_periodic_timer` (lines 182-187): initialise `next_dis` to
`RPL_DIS_INTERVAL - RPL_DIS_START_DELAY` and arm the periodic timer for
one second. -/
def rpl_reset_periodic_timer : PeriodicState :=
  { next_dis := RPL_DIS_INTERVAL - RPL_DIS_START_DELAY,
    periodic_timer := some CLOCK_SECOND }

/-! ## Concrete states used by the scenario claims -/

/-- A freshly tracked preferred parent: no DIO received yet, all prediction
fields clear. -/
def pref0 : Parent :=
  { next_dio_time := 0, next_dio_delay := 0, next_dio_start_interval := 0,
    first_dio_received := 0, latency_metric := 0, latency_timer := none,
    is_preferred := true }

/-- The predictor at the moment the parent becomes preferred. -/
def predS0 : PredState := predInit pref0

/-- The predictor state after the parent's first advertisement, received at
time 0 and carrying `(delay = 0, nextTime = 1000, nextDelay = 500)`. -/
def afterFirstDio : PredState := (rpl_dio_received predS0 0 0 1000 500).1

/-- The run "probing began, then an advertisement arrived": the wait timer
expired (`handle_next_dio` with random `r`), then a DIO carrying
`(delay, next_time, next_delay)` is received at `now`. -/
def postProbeDio (s : PredState) (r now delay next_time next_delay : Nat) :
    PredState × PredOut :=
  rpl_dio_received (handle_next_dio s r) now delay next_time next_delay

/-- The spec's trickle scenario: minimal-interval exponent 3, two doublings,
redundancy threshold 1, at the start of a minimal interval (send pending). -/
def scenarioDag : Dag :=
  { dio_intcurrent := 3, dio_intmin := 3, dio_intdoubl := 2, dio_counter := 0,
    dio_redundancy := 1, dio_send := 1, dio_next_delay := 0, dio_timer := none,
    dao_armed := false, dao_timer_dur := none }

/-- The same scenario graph at an interval end (first half already spent). -/
def scenarioDagEnd : Dag := { scenarioDag with dio_send := 0 }

/-- The same scenario graph with the exponent already at the cap. -/
def scenarioDagHigh : Dag := { scenarioDag with dio_intcurrent := 5 }

/-- Look-ahead cache empty, node ready to send. -/
def scenarioGlob : TrickleGlob := { next_time := 0, next_delay := 0, dio_send_ok := 1 }

/-- `n` successive expiries of the DIO timer (link-local address available,
all random draws 0): the handler alternates between the send phase and the
interval-end phase by itself, via `dio_send`. -/
def trickleRun (dag : Dag) (g : TrickleGlob) : Nat → Dag × TrickleGlob
  | 0 => (dag, g)
  | n + 1 =>
    ((handle_dio_timer (trickleRun dag g n).1 (trickleRun dag g n).2 true 0 0).1,
     (handle_dio_timer (trickleRun dag g n).1 (trickleRun dag g n).2 true 0 0).2.1)

/-! ## Helper lemmas -/

lemma u32_lt (n : Nat) : u32 n < M32 := Nat.mod_lt n (by norm_num [M32])

lemma u32_u32 (n : Nat) : u32 (u32 n) = u32 n := by
  unfold u32 M32; omega

lemma u32_eq_of_lt {n : Nat} (h : n < M32) : u32 n = n := Nat.mod_eq_of_lt h

/-- `uint32_t` subtraction computes the exact difference when there is no
wrap-around. -/
lemma sub32_eq (a b : Nat) (hb : b ≤ a) (ha : a < M32) : sub32 a b = a - b := by
  unfold sub32
  rw [u32_eq_of_lt ha, u32_eq_of_lt (lt_of_le_of_lt hb ha)]
  have h : a + M32 - b = M32 + (a - b) := by omega
  rw [h, Nat.add_mod_left, Nat.mod_eq_of_lt (by omega)]

/-- The random enlargement `(half * r) / RANDOM_RAND_MAX` computed in
`uint32_t` never exceeds `half` when `r ≤ RANDOM_RAND_MAX`, even when the
product wraps modulo `2^32`. -/
lemma rand_scale_le (half r : Nat) (hr : r ≤ RANDOM_RAND_MAX) :
    u32 (half * r) / RANDOM_RAND_MAX ≤ half := by
  rcases lt_or_ge (half * r) M32 with hlt | hge
  · rw [u32_eq_of_lt hlt]
    have h1 : half * r ≤ half * RANDOM_RAND_MAX := Nat.mul_le_mul_left half hr
    have h2 : half * RANDOM_RAND_MAX / RANDOM_RAND_MAX = half :=
      Nat.mul_div_cancel half (by norm_num [RANDOM_RAND_MAX])
    calc half * r / RANDOM_RAND_MAX ≤ half * RANDOM_RAND_MAX / RANDOM_RAND_MAX :=
          Nat.div_le_div_right h1
      _ = half := h2
  · have hub : u32 (half * r) / RANDOM_RAND_MAX ≤ 65537 := by
      have h3 : u32 (half * r) ≤ M32 - 1 := by
        have := u32_lt (half * r)
        omega
      calc u32 (half * r) / RANDOM_RAND_MAX ≤ (M32 - 1) / RANDOM_RAND_MAX :=
            Nat.div_le_div_right h3
        _ = 65537 := by norm_num [M32, RANDOM_RAND_MAX]
    have hlb : 65538 ≤ half := by
      by_contra hc
      push_neg at hc
      have h4 : half * r ≤ 65537 * RANDOM_RAND_MAX :=
        Nat.mul_le_mul (by omega) hr
      have h5 : (65537 : Nat) * RANDOM_RAND_MAX < M32 := by
        norm_num [M32, RANDOM_RAND_MAX]
      omega
    omega

lemma new_dio_interval_intcurrent (dag : Dag) (g : TrickleGlob) (r1 r2 : Nat) :
    (new_dio_interval dag g r1 r2).1.dio_intcurrent = dag.dio_intcurrent := rfl

lemma schedule_dao_noop {dag : Dag} (h : dag.dao_armed = true) (r : Nat) :
    rpl_schedule_dao dag r = (dag, false) := by
  unfold rpl_schedule_dao
  rw [if_pos h]

lemma schedule_dao_arm {dag : Dag} (h : dag.dao_armed = false) (r : Nat) :
    rpl_schedule_dao dag r =
      ({ dag with
          dao_armed := true,
          dao_timer_dur := some (DEFAULT_DAO_LATENCY / 2 + r % DEFAULT_DAO_LATENCY) },
       true) := by
  unfold rpl_schedule_dao
  rw [if_neg (by simp [h])]

lemma sched_dis_sended (s : PredState) (a b c d : Nat) :
    (rpl_schedule_next_dio_reception s a b c d).dis_sended = s.dis_sended := by
  unfold rpl_schedule_next_dio_reception
  split <;> rfl

lemma dioTimeliness_dis_sended (s : PredState) (res : Bool) (a b c d : Nat) :
    (dioTimeliness s res a b c d).1.dis_sended = s.dis_sended := by
  unfold dioTimeliness
  split
  · rw [sched_dis_sended]
  · split
    · rw [sched_dis_sended]
    · rfl

lemma dioTimeliness_residual (s : PredState) (res : Bool) (a b c d : Nat) :
    (dioTimeliness s res a b c d).2.residualTaken = res := by
  unfold dioTimeliness
  split
  · rfl
  · split <;> rfl

/-- Every predictor event preserves `dis_sended = 0`: the only assignments
in the source set it to 0 (the `dis_sended = 1;` of line 300 is commented
out). -/
lemma predStep_dis_sended_zero {s : PredState} (h : s.dis_sended = 0)
    (e : PredEvent) : (predStep s e).dis_sended = 0 := by
  cases e with
  | sched now delay next_time next_delay =>
      rw [predStep, sched_dis_sended]; exact h
  | waitExpiry r =>
      rw [predStep]; unfold handle_next_dio
      split <;> exact h
  | probeExpiry r =>
      rw [predStep]; unfold send_dis
      split <;> exact h
  | dio now delay next_time next_delay =>
      rw [predStep]; unfold rpl_dio_received
      split
      · split
        · exact rfl
        · rw [if_neg (by simp [h])]
          rw [dioTimeliness_dis_sended]; exact h
      · exact h

/-- With `dis_sended = 0`, `rpl_dio_received` never runs the residual
branch. -/
lemma dio_received_residual_false {s : PredState} (hz : s.dis_sended = 0)
    (now delay next_time next_delay : Nat) :
    (rpl_dio_received s now delay next_time next_delay).2.residualTaken = false := by
  unfold rpl_dio_received
  split
  · split
    · rfl
    · rw [if_neg (by simp [hz])]
      exact dioTimeliness_residual ..
  · rfl

/-! ## Claim theorems -/

/-- C1 (counterexample): the claim's concrete arithmetic fails on the code.
After the first advertisement `(delay=0, nextTime=1000, nextDelay=500)`
received at time 0, the code compares arrivals against the window START
`now+1000` (`next_dio_start_interval + next_dio_time`), not the window end:
an advertisement at `now+1600` is NOT treated as on-time (it records a
latency sample of 600 and publishes it), and one at `now+2000` records
`latencyMetric = 1000`, not 500.  So the conjunction "no latency sample at
now+1600, and latencyMetric = 500 at now+2000" is false. -/
theorem C1_counterexample :
    ¬ ((rpl_dio_received afterFirstDio 1600 0 1000 500).2.metricUpdated = false ∧
       (rpl_dio_received afterFirstDio 2000 0 1000 500).1.p.latency_metric = 500) := by
  decide

/-- C1 (amended): after the preferred neighbour's first advertisement
`(delay=0, nextTime=1000, nextDelay=500)` received at time 0 (skew 400
added to nextDelay), the predicted window is `[now+1000, now+1900)` and
the wait timer is armed for 1900 ticks.  The timeliness comparison uses
the window start `now+1000`: an advertisement at `now+1600` is late and
records `latencyMetric = 600` (published via the metric recomputation),
one at `now+2000` records `latencyMetric = 1000 = 2000 - 1000`, and one
at `now+900` (at or before `now+1000`) records no latency sample. -/
theorem C1_prediction_arithmetic :
    afterFirstDio.p.next_dio_start_interval = 0 ∧
    afterFirstDio.p.next_dio_time = 1000 ∧
    afterFirstDio.p.next_dio_delay = 500 + 400 ∧
    afterFirstDio.p.latency_timer = some (0 + 1000 + 900) ∧
    afterFirstDio.p.first_dio_received = 1 ∧
    (rpl_dio_received afterFirstDio 1600 0 1000 500).2.metricUpdated = true ∧
    (rpl_dio_received afterFirstDio 1600 0 1000 500).1.p.latency_metric = 1600 - 1000 ∧
    (rpl_dio_received afterFirstDio 2000 0 1000 500).2.metricUpdated = true ∧
    (rpl_dio_received afterFirstDio 2000 0 1000 500).1.p.latency_metric = 2000 - 1000 ∧
    (rpl_dio_received afterFirstDio 900 0 1000 500).2.metricUpdated = false := by
  decide

/-- C2 (counterexample): the probe-recovery branch never runs.  After the
first advertisement (time 0, triple `(0, 1000, 500)`), the wait timer
expires (`handle_next_dio`, probing begins) and a new advertisement with
the same triple arrives at time 2500.  The claim requires the predictor to
recompute the window by the residual-time correction (which keeps
`next_dio_start_interval` unchanged at 0); instead the residual branch is
not executed and the window is restarted fresh at
`next_dio_start_interval = 2500`. -/
theorem C2_counterexample :
    (postProbeDio afterFirstDio 0 2500 0 1000 500).2.residualTaken = false ∧
    (postProbeDio afterFirstDio 0 2500 0 1000 500).1.p.next_dio_start_interval = 2500 := by
  decide

/-- C2 (amended): every advertisement received from the preferred next hop
after a probe-retry loop began is handled as a FIRST advertisement, because
`handle_next_dio` cleared `first_dio_received`: the predictor records a
fresh window from the newly advertised triple (start `now+delay`, time
`nextTime`, delay `nextDelay+400`), re-arms the wait timer for
`delay + nextTime + nextDelay + 400`, sets `first_dio_received`, so the
probe loop halts (`send_dis` emits nothing more); the residual-time
correction guarded by `dis_sended` is not executed. -/
theorem C2_post_probe_fresh_window (s : PredState)
    (r now delay next_time next_delay : Nat)
    (hp : s.p.is_preferred = true) :
    (postProbeDio s r now delay next_time next_delay).2.residualTaken = false ∧
    (postProbeDio s r now delay next_time next_delay).2.metricUpdated = false ∧
    (postProbeDio s r now delay next_time next_delay).1.p.first_dio_received = 1 ∧
    (postProbeDio s r now delay next_time next_delay).1.p.next_dio_start_interval =
      u32 (now + delay) ∧
    (postProbeDio s r now delay next_time next_delay).1.p.next_dio_time = u32 next_time ∧
    (postProbeDio s r now delay next_time next_delay).1.p.next_dio_delay =
      u32 (next_delay + 400) ∧
    (postProbeDio s r now delay next_time next_delay).1.p.latency_timer =
      some (u32 (delay + next_time + u32 (next_delay + 400))) ∧
    (send_dis (postProbeDio s r now delay next_time next_delay).1 r).2.disSent = false := by
  simp [postProbeDio, handle_next_dio, rpl_dio_received,
    rpl_schedule_next_dio_reception, send_dis, noPredOut, hp, u32_u32]

/-- C2 (witness): the amended behaviour at the concrete probe-recovery
trace of the counterexample. -/
theorem C2_witness :
    (postProbeDio afterFirstDio 0 2500 0 1000 500).2.residualTaken = false ∧
    (postProbeDio afterFirstDio 0 2500 0 1000 500).1.p.next_dio_start_interval =
      u32 (2500 + 0) :=
  ⟨(C2_post_probe_fresh_window afterFirstDio 0 2500 0 1000 500 (by decide)).1,
   (C2_post_probe_fresh_window afterFirstDio 0 2500 0 1000 500 (by decide)).2.2.2.1⟩

/-- C3: in every reachable state of the predictor the static flag
`dis_sended` equals 0 — no execution path of `handle_next_dio`, `send_dis`,
`rpl_schedule_next_dio_reception` or `rpl_dio_received` assigns it a
nonzero value (`dis_sended = 1;` is commented out in the source) — so the
residual-correction branch guarded by `if (dis_sended)` in
`rpl_dio_received` is never executed. -/
theorem C3_dis_sended_always_zero (s : PredState) (h : PredReachable s)
    (now delay next_time next_delay : Nat) :
    s.dis_sended = 0 ∧
    (rpl_dio_received s now delay next_time next_delay).2.residualTaken = false := by
  have hz : s.dis_sended = 0 := by
    induction h with
    | init p => rfl
    | step e _ ih => exact predStep_dis_sended_zero ih e
  exact ⟨hz, dio_received_residual_false hz now delay next_time next_delay⟩

/-- C3 (witness): the invariant at the initial state of a freshly tracked
parent, with an arbitrary concrete DIO. -/
theorem C3_witness :
    (predInit pref0).dis_sended = 0 ∧
    (rpl_dio_received (predInit pref0) 7 0 1000 500).2.residualTaken = false :=
  C3_dis_sended_always_zero (predInit pref0) (PredReachable.init pref0) 7 0 1000 500

/-- C10: an advertisement from the preferred next hop after the first one,
with no probe outstanding (`dis_sended = 0`), that arrives on time
(`now ≤ next_dio_start_interval + next_dio_time`) but advertises a changed
schedule (`nextTime + nextDelay + 400` differs from the stored
`next_dio_time + next_dio_delay`) leaves the whole predictor state — every
prediction field and the armed wait timer — unchanged, and makes no
external call: the early-but-changed schedule is silently ignored. -/
theorem C10_early_changed_schedule_ignored (s : PredState)
    (now delay next_time next_delay : Nat)
    (hp : s.p.is_preferred = true)
    (hf : ¬ s.p.first_dio_received = 0)
    (hz : s.dis_sended = 0)
    (hontime : ¬ u32 (s.p.next_dio_start_interval + s.p.next_dio_time) < u32 now)
    (hchanged : ¬ u32 (next_time + u32 (next_delay + 400)) =
        u32 (s.p.next_dio_time + s.p.next_dio_delay)) :
    rpl_dio_received s now delay next_time next_delay = (s, noPredOut) := by
  unfold rpl_dio_received
  rw [if_pos hp, if_neg hf, if_neg (by simp [hz])]
  unfold dioTimeliness
  rw [if_neg hontime, if_neg hchanged]
  rfl

/-- C10 (witness): at the state after the first advertisement, a DIO at
time 900 (on time: 900 ≤ 1000) advertising `(0, 1000, 600)` — so
`1000 + 1000 ≠ 1000 + 900` — changes nothing. -/
theorem C10_witness :
    rpl_dio_received afterFirstDio 900 0 1000 600 = (afterFirstDio, noPredOut) :=
  C10_early_changed_schedule_ignored afterFirstDio 900 0 1000 600
    (by decide) (by decide) (by decide) (by decide) (by decide)

/-- C4: for every routing graph with
`minIntervalExp ≤ currentIntervalExp ≤ minIntervalExp + maxDoublings`
before an interval-end transition (send phase already over, address gate
passed), the bound still holds after it — the exponent is incremented only
while strictly below the cap; and in the concrete scenario
(min 3, doublings 2, redundancy 1) consecutive interval-ends take the
exponent through 3, 4, 5 and leave it capped at 5 (runs of length
2, 4, 6, 8 alternate one send phase and one interval end each). -/
theorem C4_exponent_bound (dag : Dag) (g : TrickleGlob) (lo : Bool) (r1 r2 : Nat)
    (hok : ¬ (g.dio_send_ok = 0 ∧ lo = false))
    (hend : ¬ dag.dio_send ≠ 0)
    (hlow : dag.dio_intmin ≤ dag.dio_intcurrent)
    (hhigh : dag.dio_intcurrent ≤ dag.dio_intmin + dag.dio_intdoubl) :
    (dag.dio_intmin ≤ (handle_dio_timer dag g lo r1 r2).1.dio_intcurrent ∧
     (handle_dio_timer dag g lo r1 r2).1.dio_intcurrent ≤
       dag.dio_intmin + dag.dio_intdoubl) ∧
    (scenarioDag.dio_intcurrent = 3 ∧
     (trickleRun scenarioDag scenarioGlob 2).1.dio_intcurrent = 4 ∧
     (trickleRun scenarioDag scenarioGlob 4).1.dio_intcurrent = 5 ∧
     (trickleRun scenarioDag scenarioGlob 6).1.dio_intcurrent = 5 ∧
     (trickleRun scenarioDag scenarioGlob 8).1.dio_intcurrent = 5) := by
  constructor
  · unfold handle_dio_timer
    rw [if_neg hok, if_neg hend, new_dio_interval_intcurrent]
    by_cases hc : dag.dio_intcurrent < dag.dio_intmin + dag.dio_intdoubl
    · rw [if_pos hc]
      exact ⟨by show dag.dio_intmin ≤ dag.dio_intcurrent + 1; omega,
             by show dag.dio_intcurrent + 1 ≤ dag.dio_intmin + dag.dio_intdoubl; omega⟩
    · rw [if_neg hc]
      exact ⟨hlow, hhigh⟩
  · decide

/-- C4 (witness): the bound after one interval-end transition of the
scenario graph taken at an interval end. -/
theorem C4_witness :
    scenarioDagEnd.dio_intmin ≤
      (handle_dio_timer scenarioDagEnd scenarioGlob true 0 0).1.dio_intcurrent ∧
    (handle_dio_timer scenarioDagEnd scenarioGlob true 0 0).1.dio_intcurrent ≤
      scenarioDagEnd.dio_intmin + scenarioDagEnd.dio_intdoubl :=
  (C4_exponent_bound scenarioDagEnd scenarioGlob true 0 0
    (by decide) (by decide) (by decide) (by decide)).1

/-- C5: `rpl_reset_dio_timer(dag, force)` with `force = 0` and
`currentIntervalExp = minIntervalExp` leaves the graph, the look-ahead
cache and the timer unchanged and makes no external call; with `force`
set, or whenever `currentIntervalExp > minIntervalExp`, it resets the
exponent to the minimum and the redundancy counter to 0, clears the
look-ahead cache (so the new interval is computed fresh from
`2^minIntervalExp`, not from the stale cache), starts a new interval
(`dio_send` set, timer armed for its first half) and recomputes the
look-ahead for exponent `minIntervalExp + 1`. -/
theorem C5_reset_contract (dag : Dag) (g : TrickleGlob) (force r1 r2 : Nat) :
    ((force = 0 ∧ dag.dio_intcurrent = dag.dio_intmin) →
      rpl_reset_dio_timer dag g force r1 r2 = (dag, g, noTrickleOut)) ∧
    ((force ≠ 0 ∨ dag.dio_intmin < dag.dio_intcurrent) →
      ((rpl_reset_dio_timer dag g force r1 r2).1.dio_intcurrent = dag.dio_intmin ∧
       (rpl_reset_dio_timer dag g force r1 r2).1.dio_counter = 0 ∧
       (rpl_reset_dio_timer dag g force r1 r2).1.dio_send = 1 ∧
       (rpl_reset_dio_timer dag g force r1 r2).1.dio_timer =
         some (new_interval (u32 (2 ^ dag.dio_intmin)) r1).1 ∧
       (rpl_reset_dio_timer dag g force r1 r2).1.dio_next_delay =
         (new_interval (u32 (2 ^ dag.dio_intmin)) r1).2 ∧
       (rpl_reset_dio_timer dag g force r1 r2).2.1.next_time =
         (new_interval (u32 (2 ^ (dag.dio_intmin + 1))) r2).1 ∧
       (rpl_reset_dio_timer dag g force r1 r2).2.1.next_delay =
         (new_interval (u32 (2 ^ (dag.dio_intmin + 1))) r2).2)) := by
  constructor
  · rintro ⟨hforce, hcur⟩
    unfold rpl_reset_dio_timer
    rw [if_neg (by simp [hforce, hcur])]
  · intro h
    unfold rpl_reset_dio_timer
    rw [if_pos h]
    unfold new_dio_interval
    exact ⟨rfl, rfl, rfl, rfl, rfl, rfl, rfl⟩

/-- C5 (witness): the no-op at the minimal interval without force, and the
reset of a widened graph with force clear. -/
theorem C5_witness :
    rpl_reset_dio_timer scenarioDag scenarioGlob 0 0 0 =
      (scenarioDag, scenarioGlob, noTrickleOut) ∧
    (rpl_reset_dio_timer scenarioDagHigh scenarioGlob 0 0 0).1.dio_intcurrent =
      scenarioDagHigh.dio_intmin :=
  ⟨(C5_reset_contract scenarioDag scenarioGlob 0 0 0).1 (by decide),
   ((C5_reset_contract scenarioDagHigh scenarioGlob 0 0 0).2 (by decide)).1⟩

/-- C6: a call to `rpl_schedule_dao` while the repair timer is armed and
not yet expired changes nothing (no re-arm), so two rapid requests produce
exactly one scheduled repair send; a call while the timer is idle or
expired arms it for `L/2 + random % L`, which for every random value lies
in `[L/2, 3L/2)` where `L = DEFAULT_DAO_LATENCY`. -/
theorem C6_dao_debounce (dag : Dag) (r r2 : Nat) :
    (dag.dao_armed = true → rpl_schedule_dao dag r = (dag, false)) ∧
    (dag.dao_armed = false →
      ((rpl_schedule_dao dag r).2 = true ∧
       (rpl_schedule_dao dag r).1.dao_timer_dur =
         some (DEFAULT_DAO_LATENCY / 2 + r % DEFAULT_DAO_LATENCY) ∧
       DEFAULT_DAO_LATENCY / 2 ≤ DEFAULT_DAO_LATENCY / 2 + r % DEFAULT_DAO_LATENCY ∧
       DEFAULT_DAO_LATENCY / 2 + r % DEFAULT_DAO_LATENCY < 3 * DEFAULT_DAO_LATENCY / 2 ∧
       rpl_schedule_dao (rpl_schedule_dao dag r).1 r2 =
         ((rpl_schedule_dao dag r).1, false))) := by
  constructor
  · intro h
    exact schedule_dao_noop h r
  · intro h
    have hmod : r % DEFAULT_DAO_LATENCY < DEFAULT_DAO_LATENCY :=
      Nat.mod_lt r (by norm_num [DEFAULT_DAO_LATENCY, CLOCK_SECOND])
    rw [schedule_dao_arm h]
    exact ⟨rfl, rfl, Nat.le_add_right _ _, by omega, schedule_dao_noop rfl r2⟩

/-- C6 (witness): the debounce and the [L/2, 3L/2) bound at the idle
scenario graph with random draw 300. -/
theorem C6_witness :
    (rpl_schedule_dao scenarioDag 300).2 = true ∧
    DEFAULT_DAO_LATENCY / 2 ≤ DEFAULT_DAO_LATENCY / 2 + 300 % DEFAULT_DAO_LATENCY ∧
    DEFAULT_DAO_LATENCY / 2 + 300 % DEFAULT_DAO_LATENCY < 3 * DEFAULT_DAO_LATENCY / 2 ∧
    rpl_schedule_dao (rpl_schedule_dao scenarioDag 300).1 17 =
      ((rpl_schedule_dao scenarioDag 300).1, false) :=
  ⟨((C6_dao_debounce scenarioDag 300 17).2 (by decide)).1,
   ((C6_dao_debounce scenarioDag 300 17).2 (by decide)).2.2.1,
   ((C6_dao_debounce scenarioDag 300 17).2 (by decide)).2.2.2.1,
   ((C6_dao_debounce scenarioDag 300 17).2 (by decide)).2.2.2.2⟩

/-- C7: when the DIO timer expires in the send phase (`dio_send` set) and
the local address is usable (already marked ready, or a link-local address
exists), an advertisement is emitted if and only if
`dio_counter < dio_redundancy` (otherwise the send is suppressed); in both
cases `dio_send` is cleared and the timer is re-armed for the previously
computed second-half delay `dio_next_delay`. -/
theorem C7_send_phase (dag : Dag) (g : TrickleGlob) (lo : Bool) (r1 r2 : Nat)
    (hok : ¬ (g.dio_send_ok = 0 ∧ lo = false))
    (hsend : dag.dio_send ≠ 0) :
    ((handle_dio_timer dag g lo r1 r2).2.2.dioSent = true ↔
      dag.dio_counter < dag.dio_redundancy) ∧
    ((handle_dio_timer dag g lo r1 r2).2.2.dioSuppressed = true ↔
      ¬ dag.dio_counter < dag.dio_redundancy) ∧
    (handle_dio_timer dag g lo r1 r2).1.dio_send = 0 ∧
    (handle_dio_timer dag g lo r1 r2).1.dio_timer = some dag.dio_next_delay := by
  unfold handle_dio_timer
  rw [if_neg hok, if_pos hsend]
  by_cases hc : dag.dio_counter < dag.dio_redundancy
  · rw [if_pos hc]
    exact ⟨by simp [noTrickleOut, hc], by simp [noTrickleOut, hc], rfl, rfl⟩
  · rw [if_neg hc]
    exact ⟨by simp [noTrickleOut, hc], by simp [noTrickleOut, hc], rfl, rfl⟩

/-- C7 (witness): the send phase of the scenario graph (counter 0 below
threshold 1: the DIO is emitted, `dio_send` cleared, second half armed). -/
theorem C7_witness :
    ((handle_dio_timer scenarioDag scenarioGlob true 0 0).2.2.dioSent = true ↔
      scenarioDag.dio_counter < scenarioDag.dio_redundancy) ∧
    (handle_dio_timer scenarioDag scenarioGlob true 0 0).1.dio_send = 0 :=
  ⟨(C7_send_phase scenarioDag scenarioGlob true 0 0 (by decide) (by decide)).1,
   (C7_send_phase scenarioDag scenarioGlob true 0 0 (by decide) (by decide)).2.2.1⟩

/-- C8: for every logical duration `d` and every random value
`r ≤ RANDOM_RAND_MAX`, `new_interval` first scales `d` to native ticks
`s = (d * CLOCK_SECOND) / 1000` (in `uint32_t`), produces
`firstHalf = s/2 + ((s/2) * r) / RANDOM_RAND_MAX` (the product in
`uint32_t`) and `secondHalf = s - firstHalf`; hence `firstHalf` lies in
`[s/2, s]`, `secondHalf = s - firstHalf ≤ s - s/2`, and
`firstHalf + secondHalf = s` exactly. -/
theorem C8_interval_split (d r : Nat) (hr : r ≤ RANDOM_RAND_MAX) :
    (new_interval d r).1 =
      u32 (d * CLOCK_SECOND) / 1000 / 2 +
        u32 (u32 (d * CLOCK_SECOND) / 1000 / 2 * r) / RANDOM_RAND_MAX ∧
    u32 (d * CLOCK_SECOND) / 1000 / 2 ≤ (new_interval d r).1 ∧
    (new_interval d r).1 ≤ u32 (d * CLOCK_SECOND) / 1000 ∧
    (new_interval d r).2 = u32 (d * CLOCK_SECOND) / 1000 - (new_interval d r).1 ∧
    (new_interval d r).2 ≤ u32 (d * CLOCK_SECOND) / 1000 -
      u32 (d * CLOCK_SECOND) / 1000 / 2 ∧
    (new_interval d r).1 + (new_interval d r).2 = u32 (d * CLOCK_SECOND) / 1000 := by
  have hsM : u32 (d * CLOCK_SECOND) / 1000 < M32 :=
    lt_of_le_of_lt (Nat.div_le_self _ _) (u32_lt _)
  have ht : u32 (u32 (d * CLOCK_SECOND) / 1000 / 2 * r) / RANDOM_RAND_MAX ≤
      u32 (d * CLOCK_SECOND) / 1000 / 2 := rand_scale_le _ r hr
  have h2 : u32 (d * CLOCK_SECOND) / 1000 / 2 * 2 ≤ u32 (d * CLOCK_SECOND) / 1000 :=
    Nat.div_mul_le_self _ _
  have hfst : (new_interval d r).1 =
      u32 (d * CLOCK_SECOND) / 1000 / 2 +
        u32 (u32 (d * CLOCK_SECOND) / 1000 / 2 * r) / RANDOM_RAND_MAX := by
    show u32 (u32 (d * CLOCK_SECOND) / 1000 / 2 +
      u32 (u32 (d * CLOCK_SECOND) / 1000 / 2 * r) / RANDOM_RAND_MAX) = _
    exact u32_eq_of_lt (by omega)
  have hle : (new_interval d r).1 ≤ u32 (d * CLOCK_SECOND) / 1000 := by
    rw [hfst]; omega
  have hsnd : (new_interval d r).2 =
      u32 (d * CLOCK_SECOND) / 1000 - (new_interval d r).1 := by
    show sub32 (u32 (d * CLOCK_SECOND) / 1000) (new_interval d r).1 = _
    exact sub32_eq _ _ hle hsM
  have hfh_ge : u32 (d * CLOCK_SECOND) / 1000 / 2 ≤ (new_interval d r).1 := by
    rw [hfst]; exact Nat.le_add_right _ _
  have hsum : (new_interval d r).1 + (new_interval d r).2 =
      u32 (d * CLOCK_SECOND) / 1000 := by
    rw [hsnd]; omega
  have hsle : (new_interval d r).2 ≤ u32 (d * CLOCK_SECOND) / 1000 -
      u32 (d * CLOCK_SECOND) / 1000 / 2 := by
    rw [hsnd, hfst]; omega
  exact ⟨hfst, hfh_ge, hle, hsnd, hsle, hsum⟩

/-- C8 (witness): the split at duration 1000 and random draw 32767:
`s = 128`, `firstHalf = 64 + 31 = 95`, `secondHalf = 33`. -/
theorem C8_witness :
    (new_interval 1000 32767).1 + (new_interval 1000 32767).2 =
      u32 (1000 * CLOCK_SECOND) / 1000 :=
  (C8_interval_split 1000 32767 (by decide)).2.2.2.2.2

/-- C9: every expiry of the periodic timer invokes route purge and rank
recomputation, increments the (`uint16_t`) discovery counter, and exactly
when no routing graph exists AND the incremented counter has reached
`RPL_DIS_INTERVAL` it resets the counter to 0 and emits a broadcast DIS;
the handler always re-arms the one-second timer before returning
(`ctimer_reset`); and `rpl_reset_periodic_timer` initialises the counter
to `RPL_DIS_INTERVAL - RPL_DIS_START_DELAY` and arms the one-second
timer. -/
theorem C9_maintenance_heartbeat (s : PeriodicState) (hasDag : Bool) :
    (handle_periodic_timer s hasDag).2.purgedRoutes = true ∧
    (handle_periodic_timer s hasDag).2.recalculatedRanks = true ∧
    ((handle_periodic_timer s hasDag).2.disSent = true ↔
      (hasDag = false ∧ RPL_DIS_INTERVAL ≤ u16 (s.next_dis + 1))) ∧
    ((hasDag = false ∧ RPL_DIS_INTERVAL ≤ u16 (s.next_dis + 1)) →
      (handle_periodic_timer s hasDag).1.next_dis = 0) ∧
    (¬ (hasDag = false ∧ RPL_DIS_INTERVAL ≤ u16 (s.next_dis + 1)) →
      (handle_periodic_timer s hasDag).1.next_dis = u16 (s.next_dis + 1)) ∧
    (handle_periodic_timer s hasDag).2.rearmed = true ∧
    rpl_reset_periodic_timer.next_dis = RPL_DIS_INTERVAL - RPL_DIS_START_DELAY ∧
    rpl_reset_periodic_timer.periodic_timer = some CLOCK_SECOND := by
  unfold handle_periodic_timer
  by_cases hc : hasDag = false ∧ RPL_DIS_INTERVAL ≤ u16 (s.next_dis + 1)
  · rw [if_pos hc]
    exact ⟨rfl, rfl, by simp [hc], fun _ => rfl, fun h => absurd hc h, rfl, rfl, rfl⟩
  · rw [if_neg hc]
    exact ⟨rfl, rfl, by simp [hc], fun h => absurd h hc, fun _ => rfl, rfl, rfl, rfl⟩

end RplFuzzyTimers
